import Mathlib

/-!
Shallow embedding of `custom_components/netatmo_intercom/netatmo_api.py`
(class `NetatmoAPI`) together with the constants of `const.py`.

The Python client performs blocking HTTP calls and reads the wall clock.
The embedding makes those effects explicit: an `Env` value supplies, in
order, the responses of the authentication endpoint (`requests.post` to
`NETATMO_AUTH_URL`), the responses of the generic request layer
(`requests.request`), and the successive values returned by
`time.time()`.  Every operation returns a `Res α`: the Python return
value (or raised exception) in `result`, the mutated `self` fields in
`state`, the un-consumed oracle in `env`, and the ordered trace of
network calls the operation performed in `calls`.

Python truthiness is modelled faithfully: `if not x` on an optional
string is true for `None` and for `""`; on an optional number it is true
for `None` and for `0`.
-/

deriving instance DecidableEq for Except

/-!
Specification-side description of the discovery output, written from the
spec's wording (amended on the bridge condition): a home participates
exactly when its first `"BFII"` module, in module-list order, has a
non-empty id; each `"BNDL"` module of a participating home yields one
record carrying that first bridge id, in input order.
-/

namespace Netatmo

/-- Constant `NETATMO_AUTH_URL` of `const.py`. -/
def NETATMO_AUTH_URL : String := "https://app.netatmo.net/oauth2/token"

/-- Constant `NETATMO_API_URL` of `const.py`. -/
def NETATMO_API_URL : String := "https://app.netatmo.net/api"

/-- Constant `NETATMO_SETSTATE_URL` of `const.py`. -/
def NETATMO_SETSTATE_URL : String := "https://app.netatmo.net/syncapi/v1/setstate"

/-- One module entry of the `homesdata` topology: the keys the client reads. -/
structure Module where
  id : String
  name : String
  type : String
deriving Repr, DecidableEq

/-- One home entry of the `homesdata` topology: the keys the client reads. -/
structure Home where
  id : String
  name : String
  timezone : String
  modules : List Module
deriving Repr, DecidableEq

/-- The `body` object of the `homesdata` response. -/
structure HomesBody where
  homes : List Home
deriving Repr, DecidableEq

/-- The parsed JSON of a `homesdata` response (`resp.json()`). -/
structure HomesData where
  body : HomesBody
deriving Repr, DecidableEq

/-- One record appended to `door_modules` by `get_door_modules`. -/
structure DoorModule where
  home_id : String
  home_name : String
  timezone : String
  bridge_id : String
  module_id : String
  module_name : String
deriving Repr, DecidableEq

/-- The module entry inside the `open_door` request body. -/
structure SetStateModule where
  bridge : String
  lock : Bool
  id : String
deriving Repr, DecidableEq

/-- The `home` object inside the `open_door` request body. -/
structure SetStateHome where
  timezone : String
  id : String
  modules : List SetStateModule
deriving Repr, DecidableEq

/-- The JSON body `data` that `open_door` posts to the setstate endpoint. -/
structure OpenDoorBody where
  app_type : String
  app_version : String
  home : SetStateHome
deriving Repr, DecidableEq

/-- Parsed JSON of an auth-endpoint response.  `access_token` is read with
`token_data["access_token"]` (KeyError when absent), the other two with
`.get`. -/
structure AuthBody where
  access_token : Option String
  refresh_token : Option String
  expires_in : Option Int
deriving Repr, DecidableEq

/-- Outcome of one `requests.post` to the auth endpoint: either the
transport layer raises `RequestException`, or a response with a status
code and a parsed JSON body comes back. -/
inductive AuthResult where
  | transportError
  | resp (status : Int) (body : AuthBody)
deriving Repr, DecidableEq

/-- Outcome of one `requests.request` call of the generic request layer.
The parsed JSON body is modelled as `HomesData` (the only shape the
client ever reads; `open_door` ignores the body). -/
inductive ReqResult where
  | transportError
  | resp (status : Int) (json : HomesData)
deriving Repr, DecidableEq

/-- The Python exceptions the client can raise: `RequestException`
raised by the transport, `HTTPError` raised by `raise_for_status`
(carrying the status), and `KeyError` from `token_data["access_token"]`. -/
inductive PyError where
  | transportError
  | httpStatusError (status : Int)
  | keyError
deriving Repr, DecidableEq

/-- A successful response as returned by `_make_authenticated_request`. -/
structure HttpResp where
  status : Int
  json : HomesData
deriving Repr, DecidableEq

/-- The grant type of a POST to the auth endpoint. -/
inductive GrantType where
  | password
  | refreshGrant (refresh_token : String)
deriving Repr, DecidableEq

/-- One network call of the client, as recorded in the trace: a POST to
the auth endpoint, or a `requests.request` with its method, url, the
`Authorization` header value, and the JSON body when one is sent. -/
inductive Call where
  | authPost (grant : GrantType)
  | httpRequest (method : String) (url : String) (authHeader : String) (body : Option OpenDoorBody)
deriving Repr, DecidableEq

/-- Whether a trace entry is a `requests.request` call (as opposed to an
auth-endpoint POST). -/
def Call.isHttpRequest : Call → Bool
  | .httpRequest _ _ _ _ => true
  | .authPost _ => false

/-- The JSON body carried by a trace entry, when it is a request with one. -/
def Call.requestBody : Call → Option OpenDoorBody
  | .httpRequest _ _ _ b => b
  | .authPost _ => none

/-- The instance fields of `NetatmoAPI` (`__init__`): the four immutable
credentials and the three mutable token fields, initially `None`. -/
structure ClientState where
  username : String
  password : String
  client_id : String
  client_secret : String
  access_token : Option String
  refresh_token : Option String
  token_expires_at : Option Int
deriving Repr, DecidableEq

/-- `NetatmoAPI.__init__`: credentials stored, token fields `None`. -/
def ClientState.init (username password client_id client_secret : String) : ClientState :=
  { username := username, password := password,
    client_id := client_id, client_secret := client_secret,
    access_token := none, refresh_token := none, token_expires_at := none }

/-- The oracle feeding the client: successive auth-endpoint responses,
successive generic-request responses, and successive `time.time()`
readings, each consumed front to back. -/
structure Env where
  authResps : List AuthResult
  reqResps : List ReqResult
  times : List Int
deriving Repr, DecidableEq

/-- Consume the next auth-endpoint response (an exhausted oracle yields a
transport error). -/
def Env.nextAuth (e : Env) : AuthResult × Env :=
  (e.authResps.headD .transportError, { e with authResps := e.authResps.tail })

/-- Consume the next generic-request response (an exhausted oracle
yields a transport error). -/
def Env.nextReq (e : Env) : ReqResult × Env :=
  (e.reqResps.headD .transportError, { e with reqResps := e.reqResps.tail })

/-- Consume the next clock reading (an exhausted oracle reads 0). -/
def Env.nextTime (e : Env) : Int × Env :=
  (e.times.headD 0, { e with times := e.times.tail })

/-- Result of running one client operation: the returned value or raised
exception, the updated instance fields, the remaining oracle, and the
trace of network calls made. -/
structure Res (α : Type) where
  result : Except PyError α
  state : ClientState
  env : Env
  calls : List Call
deriving Repr, DecidableEq

/-- `raise_for_status`: an `HTTPError` is raised exactly for status
codes in [400, 600). -/
def badStatus (status : Int) : Bool := 400 ≤ status && status < 600

/-- `NetatmoAPI.authenticate` (netatmo_api.py lines 29-51): one
password-grant POST; `raise_for_status`; read `access_token` (KeyError
when missing), `refresh_token` via `.get`, `expires_in` via `.get` with
default 10800; set `token_expires_at = time.time() + expires_in - 300`. -/
def authenticate (s : ClientState) (env : Env) : Res String :=
  let (r, env) := env.nextAuth
  let calls := [Call.authPost .password]
  match r with
  | .transportError => ⟨.error .transportError, s, env, calls⟩
  | .resp status body =>
    if badStatus status then
      ⟨.error (.httpStatusError status), s, env, calls⟩
    else
      match body.access_token with
      | none => ⟨.error .keyError, s, env, calls⟩
      | some tok =>
        let s := { s with access_token := some tok, refresh_token := body.refresh_token }
        let expires_in := body.expires_in.getD 10800
        let (now, env) := env.nextTime
        let s := { s with token_expires_at := some (now + expires_in - 300) }
        ⟨.ok tok, s, env, calls⟩

/-- `NetatmoAPI._refresh_access_token` (lines 53-83): with no usable
refresh token (`None` or `""`, Python truthiness) delegate to
`authenticate`; otherwise one refresh-grant POST; a `RequestException`
(transport failure or `raise_for_status`) is caught and the client falls
back to `authenticate`; a missing `access_token` key raises `KeyError`
(not caught); on success update the three token fields, keeping the old
refresh token when the response does not rotate it. -/
def _refresh_access_token (s : ClientState) (env : Env) : Res String :=
  match s.refresh_token with
  | none => authenticate s env
  | some rt =>
    if rt = "" then authenticate s env
    else
      let (r, env) := env.nextAuth
      let refreshCall := Call.authPost (.refreshGrant rt)
      match r with
      | .transportError =>
        let a := authenticate s env
        ⟨a.result, a.state, a.env, refreshCall :: a.calls⟩
      | .resp status body =>
        if badStatus status then
          let a := authenticate s env
          ⟨a.result, a.state, a.env, refreshCall :: a.calls⟩
        else
          match body.access_token with
          | none => ⟨.error .keyError, s, env, [refreshCall]⟩
          | some tok =>
            let s := { s with access_token := some tok,
                              refresh_token := some (body.refresh_token.getD rt) }
            let expires_in := body.expires_in.getD 10800
            let (now, env) := env.nextTime
            let s := { s with token_expires_at := some (now + expires_in - 300) }
            ⟨.ok tok, s, env, [refreshCall]⟩

/-- `NetatmoAPI._ensure_valid_token` (lines 85-94): with no usable
access token (`None` or `""`) call `authenticate`; else when
`token_expires_at` is truthy (present and nonzero) and
`time.time() >= token_expires_at`, call `_refresh_access_token`;
otherwise do nothing.  The short-circuit `and` reads the clock only when
`token_expires_at` is truthy. -/
def _ensure_valid_token (s : ClientState) (env : Env) : Res Unit :=
  let stale (s : ClientState) (env : Env) : Res Unit :=
    match s.token_expires_at with
    | none => ⟨.ok (), s, env, []⟩
    | some exp =>
      if exp = 0 then ⟨.ok (), s, env, []⟩
      else
        let (now, env) := env.nextTime
        if now ≥ exp then
          let r := _refresh_access_token s env
          ⟨r.result.map fun _ => (), r.state, r.env, r.calls⟩
        else ⟨.ok (), s, env, []⟩
  match s.access_token with
  | none =>
    let a := authenticate s env
    ⟨a.result.map fun _ => (), a.state, a.env, a.calls⟩
  | some tok =>
    if tok = "" then
      let a := authenticate s env
      ⟨a.result.map fun _ => (), a.state, a.env, a.calls⟩
    else stale s env

/-- `NetatmoAPI._make_authenticated_request` (lines 96-120): ensure a
valid token (errors propagate, no request made); attach
`Authorization: Bearer <access_token>` (Python renders a missing token
as the string `None`); perform the request; on status 403 call
`_refresh_access_token` once (its error propagates: `RequestException`
is re-raised by the handler, `KeyError` is not caught), re-attach the
then-current token and retry once; finally `raise_for_status` on
whichever response is current. -/
def _make_authenticated_request (method url : String) (body : Option OpenDoorBody)
    (s : ClientState) (env : Env) : Res HttpResp :=
  let e := _ensure_valid_token s env
  match e.result with
  | .error err => ⟨.error err, e.state, e.env, e.calls⟩
  | .ok _ =>
    let s := e.state
    let bearer := "Bearer " ++ s.access_token.getD "None"
    let (r, env) := e.env.nextReq
    let calls := e.calls ++ [Call.httpRequest method url bearer body]
    match r with
    | .transportError => ⟨.error .transportError, s, env, calls⟩
    | .resp status json =>
      if status = 403 then
        let rf := _refresh_access_token s env
        match rf.result with
        | .error err => ⟨.error err, rf.state, rf.env, calls ++ rf.calls⟩
        | .ok _ =>
          let s := rf.state
          let bearer2 := "Bearer " ++ s.access_token.getD "None"
          let (r2, env) := rf.env.nextReq
          let calls := calls ++ rf.calls ++ [Call.httpRequest method url bearer2 body]
          match r2 with
          | .transportError => ⟨.error .transportError, s, env, calls⟩
          | .resp st2 j2 =>
            if badStatus st2 then ⟨.error (.httpStatusError st2), s, env, calls⟩
            else ⟨.ok ⟨st2, j2⟩, s, env, calls⟩
      else
        if badStatus status then ⟨.error (.httpStatusError status), s, env, calls⟩
        else ⟨.ok ⟨status, json⟩, s, env, calls⟩

/-- `NetatmoAPI.get_homes_data` (lines 122-125): authenticated GET to
`<NETATMO_API_URL>/homesdata`, returning the parsed JSON. -/
def get_homes_data (s : ClientState) (env : Env) : Res HomesData :=
  let r := _make_authenticated_request "GET" (NETATMO_API_URL ++ "/homesdata") none s env
  ⟨r.result.map fun resp => resp.json, r.state, r.env, r.calls⟩

/-- The bridge scan of `get_door_modules` (lines 137-141): walk the
modules in order, stop at the first of type `"BFII"` and return its id;
`none` when there is no such module. -/
def findBridgeId : List Module → Option String
  | [] => none
  | m :: rest => if m.type = "BFII" then some m.id else findBridgeId rest

/-- The pure topology extraction of `get_door_modules` (lines 130-158):
per home, the first `"BFII"` module's id becomes the bridge id; a home
whose bridge id is falsy (no `"BFII"` module, or its id is `""`) is
skipped (`if not bridge_id: continue`); every `"BNDL"` module of a kept
home yields one record, in order. -/
def extractDoorModules (homes : List Home) : List DoorModule :=
  homes.flatMap fun home =>
    match findBridgeId home.modules with
    | none => []
    | some bridge_id =>
      if bridge_id = "" then []
      else
        (home.modules.filter fun m => m.type == "BNDL").map fun m =>
          { home_id := home.id, home_name := home.name, timezone := home.timezone,
            bridge_id := bridge_id, module_id := m.id, module_name := m.name }

/-- `NetatmoAPI.get_door_modules` (lines 127-158): fetch the homes data
and extract the door-module records from `body.homes`. -/
def get_door_modules (s : ClientState) (env : Env) : Res (List DoorModule) :=
  let r := get_homes_data s env
  ⟨r.result.map fun d => extractDoorModules d.body.homes, r.state, r.env, r.calls⟩

/-- `NetatmoAPI.open_door` (lines 160-188): POST the fixed envelope
(`app_type "app_camera"`, `app_version "4.1.1.3"`, one module entry
with `lock: False`) to the setstate endpoint and return `True` once the
call completed without error. -/
def open_door (home_id timezone bridge_id module_id : String)
    (s : ClientState) (env : Env) : Res Bool :=
  let data : OpenDoorBody :=
    { app_type := "app_camera", app_version := "4.1.1.3",
      home := { timezone := timezone, id := home_id,
                modules := [{ bridge := bridge_id, lock := false, id := module_id }] } }
  let r := _make_authenticated_request "POST" NETATMO_SETSTATE_URL (some data) s env
  ⟨r.result.map fun _ => true, r.state, r.env, r.calls⟩

/-- Discovery output as the (amended) specification words it: the bridge
of a home is the head of its `"BFII"`-filtered module list; homes whose
bridge is missing or has an empty id contribute nothing; each `"BNDL"`
module of the remaining homes contributes one record, in order. -/
def doorModulesSpec (homes : List Home) : List DoorModule :=
  homes.flatMap fun h =>
    match (h.modules.filter fun m => m.type == "BFII").head? with
    | none => []
    | some b =>
      if b.id = "" then []
      else
        (h.modules.filter fun m => m.type == "BNDL").map fun m =>
          { home_id := h.id, home_name := h.name, timezone := h.timezone,
            bridge_id := b.id, module_id := m.id, module_name := m.name }

/-- A home that contains a `"BFII"` module (and door modules), yet whose
first `"BFII"` module has the empty string as id. -/
def c1Home : Home :=
  ⟨"H2", "Second", "UTC",
    [⟨"", "EmptyBridge", "BFII"⟩, ⟨"D2", "Back Door", "BNDL"⟩, ⟨"B2", "LateBridge", "BFII"⟩]⟩

/-- Client state holding a valid token, for a discovery run. -/
def c1State : ClientState := ⟨"u", "p", "cid", "cs", some "T", some "R", some 1000⟩

/-- Oracle delivering `c1Home` as the sole home of the topology. -/
def c1Env : Env := ⟨[], [.resp 200 ⟨⟨[c1Home]⟩⟩], [5]⟩

/-- A home with two `"BFII"` modules (both non-empty ids) and one door
module, to exhibit first-bridge selection. -/
def c10Home : Home :=
  ⟨"H3", "Third", "CET",
    [⟨"B1", "First Bridge", "BFII"⟩, ⟨"B9", "Second Bridge", "BFII"⟩, ⟨"D3", "Gate", "BNDL"⟩]⟩

/-- raise_for_status applied to one request outcome. -/
def raiseForStatus : ReqResult → Except PyError HttpResp
  | .transportError => .error .transportError
  | .resp st j => if badStatus st then .error (.httpStatusError st) else .ok ⟨st, j⟩

/-- The operations a caller can invoke. -/
inductive Op where
  | authenticateOp
  | refreshOp
  | ensureOp
  | requestOp (method url : String) (body : Option OpenDoorBody)
  | homesDataOp
  | doorModulesOp
  | openDoorOp (home_id timezone bridge_id module_id : String)
deriving Repr, DecidableEq

/-- Run one operation for its state effect. -/
def runOp : Op → ClientState → Env → ClientState × Env
  | .authenticateOp, s, env => ((authenticate s env).state, (authenticate s env).env)
  | .refreshOp, s, env => ((_refresh_access_token s env).state, (_refresh_access_token s env).env)
  | .ensureOp, s, env => ((_ensure_valid_token s env).state, (_ensure_valid_token s env).env)
  | .requestOp m u b, s, env =>
      ((_make_authenticated_request m u b s env).state, (_make_authenticated_request m u b s env).env)
  | .homesDataOp, s, env => ((get_homes_data s env).state, (get_homes_data s env).env)
  | .doorModulesOp, s, env => ((get_door_modules s env).state, (get_door_modules s env).env)
  | .openDoorOp h tz br mo, s, env =>
      ((open_door h tz br mo s env).state, (open_door h tz br mo s env).env)

/-- Run a sequence of operations from a state and oracle. -/
def runOps : List Op → ClientState → Env → ClientState × Env
  | [], s, env => (s, env)
  | op :: ops, s, env => runOps ops (runOp op s env).1 (runOp op s env).2

/-- The token invariant: a held access token comes with an expiry. -/
def TokenInv (s : ClientState) : Prop :=
  s.access_token.isSome = true → s.token_expires_at.isSome = true

theorem findBridgeId_eq_find? (l : List Module) :
    findBridgeId l = (l.find? fun m => m.type == "BFII").map (fun m => m.id) := by
  induction l with
  | nil => rfl
  | cons m rest ih =>
    by_cases hm : m.type = "BFII"
    · simp [findBridgeId, hm, List.find?]
    · simp only [findBridgeId, hm, if_false, List.find?]
      rw [show (m.type == "BFII") = false by simpa using hm]
      exact ih

theorem find?_eq_head?_filter (p : Module → Bool) (l : List Module) :
    l.find? p = (l.filter p).head? := by
  induction l with
  | nil => rfl
  | cons m rest ih =>
    by_cases hm : p m
    · simp [List.find?, List.filter, hm]
    · have hm' : p m = false := by simpa using hm
      simp only [List.find?, List.filter, hm']
      exact ih

theorem extractDoorModules_eq_spec (homes : List Home) :
    extractDoorModules homes = doorModulesSpec homes := by
  unfold extractDoorModules doorModulesSpec
  congr 1
  funext h
  rw [findBridgeId_eq_find?, find?_eq_head?_filter]
  cases hb : (h.modules.filter fun m => m.type == "BFII").head? <;> simp [hb]

/-- C1 (amended): the stateful discovery result is exactly the
specification-side extraction applied to the fetched topology — per home
whose first `"BFII"` module has a non-empty id, one record per `"BNDL"`
module, carrying the home's id/name/timezone and that bridge id, in
input order, with errors passed through unchanged; and the pure
extraction agrees with the spec-side description on every topology. -/
theorem get_door_modules_spec_conformance :
    (∀ s env, (get_door_modules s env).result
        = (get_homes_data s env).result.map fun d => doorModulesSpec d.body.homes)
    ∧ ∀ homes, extractDoorModules homes = doorModulesSpec homes := by
  constructor
  · intro s env
    show ((get_homes_data s env).result.map fun d => extractDoorModules d.body.homes) = _
    cases hr : (get_homes_data s env).result <;>
      simp [Except.map, hr, extractDoorModules_eq_spec]
  · exact extractDoorModules_eq_spec

/-- C1 as stated is false: this home contains a `"BFII"` module and a
`"BNDL"` module, yet `get_door_modules` returns no record for it,
because the first `"BFII"` module's id is `""` (Python
`if not bridge_id: continue`). -/
theorem get_door_modules_skips_home_with_bfii :
    (c1Home.modules.any fun m => m.type == "BFII") = true
    ∧ (c1Home.modules.any fun m => m.type == "BNDL") = true
    ∧ (get_door_modules c1State c1Env).result = .ok [] := by decide

/-- C10: the bridge id of a home is the id of its first `"BFII"` module
in module-list order — every emitted record of the home carries it — and
when that first `"BFII"` module's id is `""` the home contributes no
records at all, even if door modules or later `"BFII"` modules with
non-empty ids exist. -/
theorem bridge_is_first_bfii (h : Home) (m : Module)
    (hfind : h.modules.find? (fun x => x.type == "BFII") = some m) :
    (m.id ≠ "" → extractDoorModules [h]
        = (h.modules.filter fun x => x.type == "BNDL").map fun d =>
            { home_id := h.id, home_name := h.name, timezone := h.timezone,
              bridge_id := m.id, module_id := d.id, module_name := d.name })
    ∧ (m.id = "" → extractDoorModules [h] = []) := by
  have hb : findBridgeId h.modules = some m.id := by
    rw [findBridgeId_eq_find?, hfind]
    rfl
  constructor
  · intro hne
    simp [extractDoorModules, hb, hne]
  · intro he
    simp [extractDoorModules, hb, he]

/-- Witness for C10: on `c10Home` the first `"BFII"` module is `B1` and
the single emitted record carries `bridge_id = "B1"`, not `"B9"`. -/
theorem bridge_is_first_bfii_witness :
    c10Home.modules.find? (fun x => x.type == "BFII")
        = some ⟨"B1", "First Bridge", "BFII"⟩
    ∧ extractDoorModules [c10Home]
        = [{ home_id := "H3", home_name := "Third", timezone := "CET",
             bridge_id := "B1", module_id := "D3", module_name := "Gate" }] := by
  refine ⟨by decide, ?_⟩
  rw [(bridge_is_first_bfii c10Home ⟨"B1", "First Bridge", "BFII"⟩ (by decide)).1 (by decide)]
  rfl

/-- C4: after a successful `authenticate` — and after a successful
refresh-grant in `_refresh_access_token` — `token_expires_at` equals the
clock reading at issue time plus the server's `expires_in` minus 300
seconds, with 10800 substituted when the response omits `expires_in`
(both substitutions are the `getD 10800`). -/
theorem expires_at_formula
    (s : ClientState) (env : Env) (st : Int) (body : AuthBody)
    (rest : List AuthResult) (tok : String)
    (hresp : env.authResps = .resp st body :: rest)
    (hst : badStatus st = false)
    (htok : body.access_token = some tok) :
    (authenticate s env).state.token_expires_at
        = some (env.times.headD 0 + body.expires_in.getD 10800 - 300)
    ∧ ∀ rt, s.refresh_token = some rt → rt ≠ "" →
        (_refresh_access_token s env).state.token_expires_at
          = some (env.times.headD 0 + body.expires_in.getD 10800 - 300) := by
  constructor
  · simp [authenticate, Env.nextAuth, Env.nextTime, hresp, hst, htok]
  · intro rt hrt hne
    simp [_refresh_access_token, Env.nextAuth, Env.nextTime, hrt, hne, hresp, hst, htok]

/-- Witness for C4: a response with `expires_in` absent, issued at clock
reading 100, yields `token_expires_at = 100 + 10800 - 300 = 10600`, for
both the password grant and the refresh grant. -/
theorem expires_at_formula_witness :
    (authenticate ⟨"u", "p", "ci", "cs", some "A", some "R0", some 7⟩
        ⟨[.resp 200 ⟨some "T", some "R", none⟩], [], [100]⟩).state.token_expires_at
      = some 10600
    ∧ (_refresh_access_token ⟨"u", "p", "ci", "cs", some "A", some "R0", some 7⟩
        ⟨[.resp 200 ⟨some "T", some "R", none⟩], [], [100]⟩).state.token_expires_at
      = some 10600 := by
  have h := expires_at_formula ⟨"u", "p", "ci", "cs", some "A", some "R0", some 7⟩
    ⟨[.resp 200 ⟨some "T", some "R", none⟩], [], [100]⟩ 200
    ⟨some "T", some "R", none⟩ [] "T" rfl (by decide) rfl
  exact ⟨by simpa using h.1, by simpa using h.2 "R0" rfl (by decide)⟩

/-- C3: `_refresh_access_token` with no held refresh token delegates to
`authenticate`; when the refresh-grant POST fails at the transport or
HTTP level the error is not propagated and the call becomes a full
`authenticate` on the stored credentials, returning its result (with the
failed refresh POST still in the trace); on refresh success the access
token is updated, the refresh token is rotated when the response carries
one and kept otherwise, and `token_expires_at` is recomputed. -/
theorem refresh_self_healing (s : ClientState) (env : Env) :
    (s.refresh_token = none → _refresh_access_token s env = authenticate s env)
    ∧ (∀ rt r rest, s.refresh_token = some rt → rt ≠ "" →
        env.authResps = r :: rest →
        (r = .transportError ∨ ∃ st b, r = .resp st b ∧ badStatus st = true) →
        _refresh_access_token s env
          = { result := (authenticate s { env with authResps := rest }).result,
              state := (authenticate s { env with authResps := rest }).state,
              env := (authenticate s { env with authResps := rest }).env,
              calls := Call.authPost (.refreshGrant rt)
                  :: (authenticate s { env with authResps := rest }).calls })
    ∧ (∀ rt st body rest tok, s.refresh_token = some rt → rt ≠ "" →
        env.authResps = .resp st body :: rest → badStatus st = false →
        body.access_token = some tok →
        (_refresh_access_token s env).result = .ok tok
        ∧ (_refresh_access_token s env).state.access_token = some tok
        ∧ (_refresh_access_token s env).state.refresh_token = some (body.refresh_token.getD rt)
        ∧ (_refresh_access_token s env).state.token_expires_at
            = some (env.times.headD 0 + body.expires_in.getD 10800 - 300)) := by
  refine ⟨?_, ?_, ?_⟩
  · intro h
    simp [_refresh_access_token, h]
  · intro rt r rest hrt hne hresp hfail
    rcases hfail with hf | ⟨st, b, hf, hb⟩ <;> subst hf <;>
      simp [_refresh_access_token, Env.nextAuth, hrt, hne, hresp, *]
  · intro rt st body rest tok hrt hne hresp hb htok
    refine ⟨?_, ?_, ?_, ?_⟩ <;>
      simp [_refresh_access_token, Env.nextAuth, Env.nextTime, hrt, hne, hresp, hb, htok]

/-- Witness for C3: no refresh token delegates to `authenticate`; a
transport-failing refresh grant falls back to a password grant that
succeeds with token `T`, tracing both POSTs; a refresh response without
a rotated refresh token keeps the stored `R0`. -/
theorem refresh_self_healing_witness :
    (_refresh_access_token ⟨"u", "p", "ci", "cs", some "A", none, some 7⟩ ⟨[], [], []⟩
        = authenticate ⟨"u", "p", "ci", "cs", some "A", none, some 7⟩ ⟨[], [], []⟩)
    ∧ (_refresh_access_token ⟨"u", "p", "ci", "cs", some "A", some "R0", some 7⟩
          ⟨[.transportError, .resp 200 ⟨some "T", none, none⟩], [], [50]⟩).result = .ok "T"
    ∧ (_refresh_access_token ⟨"u", "p", "ci", "cs", some "A", some "R0", some 7⟩
          ⟨[.transportError, .resp 200 ⟨some "T", none, none⟩], [], [50]⟩).calls
        = [Call.authPost (.refreshGrant "R0"), Call.authPost .password]
    ∧ (_refresh_access_token ⟨"u", "p", "ci", "cs", some "A", some "R0", some 7⟩
          ⟨[.resp 200 ⟨some "T2", none, none⟩], [], [50]⟩).state.refresh_token = some "R0" := by
  have h2 := (refresh_self_healing ⟨"u", "p", "ci", "cs", some "A", some "R0", some 7⟩
      ⟨[.transportError, .resp 200 ⟨some "T", none, none⟩], [], [50]⟩).2.1
      "R0" .transportError [.resp 200 ⟨some "T", none, none⟩] rfl (by decide) rfl (Or.inl rfl)
  have h3 := (refresh_self_healing ⟨"u", "p", "ci", "cs", some "A", some "R0", some 7⟩
      ⟨[.resp 200 ⟨some "T2", none, none⟩], [], [50]⟩).2.2
      "R0" 200 ⟨some "T2", none, none⟩ [] "T2" rfl (by decide) rfl (by decide) rfl
  refine ⟨(refresh_self_healing _ _).1 rfl, ?_, ?_, by simpa using h3.2.2.1⟩
  · rw [h2]
    decide
  · rw [h2]
    decide

/-- An `authenticate` run that raises leaves the instance fields
untouched: every assignment in the source happens after the last
fallible step. -/
theorem authenticate_error_state (s : ClientState) (env : Env) (e : PyError)
    (h : (authenticate s env).result = .error e) : (authenticate s env).state = s := by
  obtain ⟨ars, rrs, ts⟩ := env
  cases ars with
  | nil => rfl
  | cons r rest =>
    cases r with
    | transportError => rfl
    | resp st body =>
      by_cases hb : badStatus st
      · simp [authenticate, Env.nextAuth, hb]
      · cases hab : body.access_token with
        | none => simp [authenticate, Env.nextAuth, hb, hab]
        | some tk =>
          exfalso
          simp [authenticate, Env.nextAuth, Env.nextTime, hb, hab] at h

/-- A successful `authenticate` run writes all three token fields from
one auth response body and one clock reading. -/
theorem authenticate_ok_shape (s : ClientState) (env : Env) (tok : String)
    (h : (authenticate s env).result = .ok tok) :
    ∃ (body : AuthBody) (t : Int), body.access_token = some tok ∧
      (authenticate s env).state
        = { s with access_token := some tok, refresh_token := body.refresh_token,
                   token_expires_at := some (t + body.expires_in.getD 10800 - 300) } := by
  obtain ⟨ars, rrs, ts⟩ := env
  cases ars with
  | nil => exact Except.noConfusion h
  | cons r rest =>
    cases r with
    | transportError => exact Except.noConfusion h
    | resp st body =>
      by_cases hb : badStatus st
      · simp [authenticate, Env.nextAuth, hb] at h
      · cases hab : body.access_token with
        | none => simp [authenticate, Env.nextAuth, hb, hab] at h
        | some tk =>
          have htk : tk = tok := by
            simpa [authenticate, Env.nextAuth, Env.nextTime, hb, hab] using h
          refine ⟨body, ts.headD 0, by simp [hab, htk], ?_⟩
          simp [authenticate, Env.nextAuth, Env.nextTime, hb, hab, htk]

/-- A `_refresh_access_token` run that raises leaves the instance fields
untouched, through the delegate, fallback and direct-refresh paths. -/
theorem refresh_error_state (s : ClientState) (env : Env) (e : PyError)
    (h : (_refresh_access_token s env).result = .error e) :
    (_refresh_access_token s env).state = s := by
  cases hrt : s.refresh_token with
  | none =>
    have heq : _refresh_access_token s env = authenticate s env := by
      simp [_refresh_access_token, hrt]
    rw [heq] at h ⊢
    exact authenticate_error_state s env e h
  | some rt =>
    by_cases hne : rt = ""
    · have heq : _refresh_access_token s env = authenticate s env := by
        simp [_refresh_access_token, hrt, hne]
      rw [heq] at h ⊢
      exact authenticate_error_state s env e h
    · cases hresp : env.authResps with
      | nil =>
        simp [_refresh_access_token, authenticate, Env.nextAuth, hrt, hne, hresp]
      | cons r rest =>
        cases r with
        | transportError =>
          have hst : (_refresh_access_token s env).state
              = (authenticate s { env with authResps := rest }).state := by
            simp [_refresh_access_token, Env.nextAuth, hrt, hne, hresp]
          have hres : (_refresh_access_token s env).result
              = (authenticate s { env with authResps := rest }).result := by
            simp [_refresh_access_token, Env.nextAuth, hrt, hne, hresp]
          rw [hres] at h
          rw [hst]
          exact authenticate_error_state _ _ e h
        | resp st body =>
          by_cases hb : badStatus st
          · have hst : (_refresh_access_token s env).state
                = (authenticate s { env with authResps := rest }).state := by
              simp [_refresh_access_token, Env.nextAuth, hrt, hne, hresp, hb]
            have hres : (_refresh_access_token s env).result
                = (authenticate s { env with authResps := rest }).result := by
              simp [_refresh_access_token, Env.nextAuth, hrt, hne, hresp, hb]
            rw [hres] at h
            rw [hst]
            exact authenticate_error_state _ _ e h
          · cases hab : body.access_token with
            | none =>
              simp [_refresh_access_token, Env.nextAuth, hrt, hne, hresp, hb, hab]
            | some tk =>
              exfalso
              simp [_refresh_access_token, Env.nextAuth, Env.nextTime,
                hrt, hne, hresp, hb, hab] at h

/-- A successful `_refresh_access_token` run writes all three token
fields from one auth response body and one clock reading; the refresh
token comes from that body, with the previously stored one as default on
the direct-refresh path. -/
theorem refresh_ok_shape (s : ClientState) (env : Env) (tok : String)
    (h : (_refresh_access_token s env).result = .ok tok) :
    ∃ (body : AuthBody) (t : Int) (rtNew : Option String), body.access_token = some tok ∧
      (_refresh_access_token s env).state
        = { s with access_token := some tok, refresh_token := rtNew,
                   token_expires_at := some (t + body.expires_in.getD 10800 - 300) }
      ∧ (rtNew = body.refresh_token
          ∨ ∃ rt, s.refresh_token = some rt ∧ rtNew = some (body.refresh_token.getD rt)) := by
  cases hrt : s.refresh_token with
  | none =>
    have heq : _refresh_access_token s env = authenticate s env := by
      simp [_refresh_access_token, hrt]
    rw [heq] at h ⊢
    obtain ⟨body, t, hb, hs⟩ := authenticate_ok_shape s env tok h
    exact ⟨body, t, body.refresh_token, hb, hs, Or.inl rfl⟩
  | some rt =>
    by_cases hne : rt = ""
    · have heq : _refresh_access_token s env = authenticate s env := by
        simp [_refresh_access_token, hrt, hne]
      rw [heq] at h ⊢
      obtain ⟨body, t, hb, hs⟩ := authenticate_ok_shape s env tok h
      exact ⟨body, t, body.refresh_token, hb, hs, Or.inl rfl⟩
    · cases hresp : env.authResps with
      | nil =>
        exfalso
        simp [_refresh_access_token, authenticate, Env.nextAuth, hrt, hne, hresp] at h
      | cons r rest =>
        cases r with
        | transportError =>
          have hst : (_refresh_access_token s env).state
              = (authenticate s { env with authResps := rest }).state := by
            simp [_refresh_access_token, Env.nextAuth, hrt, hne, hresp]
          have hres : (_refresh_access_token s env).result
              = (authenticate s { env with authResps := rest }).result := by
            simp [_refresh_access_token, Env.nextAuth, hrt, hne, hresp]
          rw [hres] at h
          rw [hst]
          obtain ⟨body, t, hb, hs⟩ := authenticate_ok_shape _ _ tok h
          exact ⟨body, t, body.refresh_token, hb, hs, Or.inl rfl⟩
        | resp st body =>
          by_cases hb : badStatus st
          · have hst : (_refresh_access_token s env).state
                = (authenticate s { env with authResps := rest }).state := by
              simp [_refresh_access_token, Env.nextAuth, hrt, hne, hresp, hb]
            have hres : (_refresh_access_token s env).result
                = (authenticate s { env with authResps := rest }).result := by
              simp [_refresh_access_token, Env.nextAuth, hrt, hne, hresp, hb]
            rw [hres] at h
            rw [hst]
            obtain ⟨body2, t, hb2, hs⟩ := authenticate_ok_shape _ _ tok h
            exact ⟨body2, t, body2.refresh_token, hb2, hs, Or.inl rfl⟩
          · cases hab : body.access_token with
            | none =>
              exfalso
              simp [_refresh_access_token, Env.nextAuth, hrt, hne, hresp, hb, hab] at h
            | some tk =>
              have htk : tk = tok := by
                simpa [_refresh_access_token, Env.nextAuth, Env.nextTime,
                  hrt, hne, hresp, hb, hab] using h
              refine ⟨body, env.times.headD 0, some (body.refresh_token.getD rt),
                by simp [hab, htk], ?_, Or.inr ⟨rt, rfl, rfl⟩⟩
              simp [_refresh_access_token, Env.nextAuth, Env.nextTime,
                hrt, hne, hresp, hb, hab, htk]

/-- C7: token mutation is atomic — an `authenticate` or
`_refresh_access_token` run that raises leaves `access_token`,
`refresh_token` and `token_expires_at` exactly as they were, and a
successful run writes all three fields from a single auth response body
and a single clock reading, so no state mixes an old access token with a
new expiry or vice versa. -/
theorem token_mutation_atomic (s : ClientState) (env : Env) :
    (∀ e, (authenticate s env).result = .error e → (authenticate s env).state = s)
    ∧ (∀ e, (_refresh_access_token s env).result = .error e →
        (_refresh_access_token s env).state = s)
    ∧ (∀ tok, (authenticate s env).result = .ok tok → ∃ (body : AuthBody) (t : Int),
        body.access_token = some tok ∧
        (authenticate s env).state
          = { s with access_token := some tok, refresh_token := body.refresh_token,
                     token_expires_at := some (t + body.expires_in.getD 10800 - 300) })
    ∧ (∀ tok, (_refresh_access_token s env).result = .ok tok →
        ∃ (body : AuthBody) (t : Int) (rtNew : Option String), body.access_token = some tok ∧
        (_refresh_access_token s env).state
          = { s with access_token := some tok, refresh_token := rtNew,
                     token_expires_at := some (t + body.expires_in.getD 10800 - 300) }
        ∧ (rtNew = body.refresh_token
            ∨ ∃ rt, s.refresh_token = some rt ∧ rtNew = some (body.refresh_token.getD rt))) :=
  ⟨fun e h => authenticate_error_state s env e h,
   fun e h => refresh_error_state s env e h,
   fun tok h => authenticate_ok_shape s env tok h,
   fun tok h => refresh_ok_shape s env tok h⟩

/-- Witness for C7: a failing password grant and a failing refresh
chain leave the concrete state untouched; a successful password grant
rewrites the three fields from its single response. -/
theorem token_mutation_atomic_witness :
    ((authenticate ⟨"u", "p", "ci", "cs", some "A", some "R0", some 7⟩ ⟨[], [], []⟩).state
        = ⟨"u", "p", "ci", "cs", some "A", some "R0", some 7⟩)
    ∧ ((_refresh_access_token ⟨"u", "p", "ci", "cs", some "A", some "R0", some 7⟩
          ⟨[.transportError], [], []⟩).state
        = ⟨"u", "p", "ci", "cs", some "A", some "R0", some 7⟩)
    ∧ (∃ (body : AuthBody) (t : Int), body.access_token = some "T" ∧
        (authenticate ⟨"u", "p", "ci", "cs", some "A", some "R0", some 7⟩
            ⟨[.resp 200 ⟨some "T", some "R", some 5000⟩], [], [40]⟩).state
          = { (⟨"u", "p", "ci", "cs", some "A", some "R0", some 7⟩ : ClientState) with
                access_token := some "T", refresh_token := body.refresh_token,
                token_expires_at := some (t + body.expires_in.getD 10800 - 300) }) := by
  refine ⟨?_, ?_, ?_⟩
  · exact (token_mutation_atomic _ ⟨[], [], []⟩).1 .transportError (by decide)
  · exact (token_mutation_atomic _ ⟨[.transportError], [], []⟩).2.1 .transportError (by decide)
  · exact (token_mutation_atomic _ ⟨[.resp 200 ⟨some "T", some "R", some 5000⟩], [], [40]⟩).2.2.1
      "T" (by decide)

/-- Structure of a `_make_authenticated_request` trace: when token
assurance succeeds, the primary request follows the assurance calls and
carries the then-current bearer token; when it raises, no request is
made and the error propagates. -/
theorem make_calls_split (m u : String) (b : Option OpenDoorBody)
    (s : ClientState) (env : Env) :
    ((_ensure_valid_token s env).result = .ok () →
      ∃ tail, (_make_authenticated_request m u b s env).calls
        = (_ensure_valid_token s env).calls
          ++ Call.httpRequest m u
              ("Bearer " ++ ((_ensure_valid_token s env).state.access_token.getD "None")) b
          :: tail)
    ∧ (∀ e2, (_ensure_valid_token s env).result = .error e2 →
        _make_authenticated_request m u b s env
          = ⟨.error e2, (_ensure_valid_token s env).state,
             (_ensure_valid_token s env).env, (_ensure_valid_token s env).calls⟩) := by
  unfold _make_authenticated_request
  generalize _ensure_valid_token s env = e
  obtain ⟨res, s1, env1, c1⟩ := e
  cases res with
  | error err =>
    constructor
    · intro h
      exact absurd h (by simp)
    · intro e2 h
      have : err = e2 := by simpa using h
      subst this
      rfl
  | ok v =>
    constructor
    · intro _
      cases hr : env1.reqResps with
      | nil => exact ⟨[], by simp [Env.nextReq, hr]⟩
      | cons r rest =>
        cases r with
        | transportError => exact ⟨[], by simp [Env.nextReq, hr]⟩
        | resp st j =>
          by_cases h403 : st = 403
          · cases hrf : (_refresh_access_token s1 { env1 with reqResps := rest }).result with
            | error err2 =>
              exact ⟨(_refresh_access_token s1 { env1 with reqResps := rest }).calls,
                by simp [Env.nextReq, hr, h403, hrf]⟩
            | ok v2 =>
              refine ⟨(_refresh_access_token s1 { env1 with reqResps := rest }).calls
                ++ [Call.httpRequest m u ("Bearer "
                    ++ ((_refresh_access_token s1
                        { env1 with reqResps := rest }).state.access_token.getD "None")) b], ?_⟩
              cases hr2 : (_refresh_access_token s1 { env1 with reqResps := rest }).env.reqResps with
              | nil => simp [Env.nextReq, hr, h403, hrf, hr2]
              | cons r2 rest2 =>
                cases r2 with
                | transportError => simp [Env.nextReq, hr, h403, hrf, hr2]
                | resp st2 j2 =>
                  by_cases hb2 : badStatus st2 <;>
                    simp [Env.nextReq, hr, h403, hrf, hr2, hb2]
          · cases hb : badStatus st <;>
              exact ⟨[], by simp [Env.nextReq, hr, h403, hb]⟩
    · intro e2 h
      exact absurd h (by simp)

/-- The `_ensure_valid_token` no-op branch: a held, non-empty token with
`token_expires_at = 0` skips even the clock read (Python truthiness of
`0.0`). -/
theorem ensure_noop_zero (s : ClientState) (env : Env) (tok : String)
    (hs : s.access_token = some tok) (hne : tok ≠ "")
    (he : s.token_expires_at = some 0) :
    _ensure_valid_token s env = ⟨.ok (), s, env, []⟩ := by
  simp [_ensure_valid_token, hs, hne, he]

/-- The `_ensure_valid_token` no-op branch: a held, non-empty, unexpired
token leads to no token operation and no network call. -/
theorem ensure_noop (s : ClientState) (env : Env) (tok : String) (exp : Int)
    (hs : s.access_token = some tok) (hne : tok ≠ "")
    (he : s.token_expires_at = some exp) (hz : exp ≠ 0)
    (hlt : ¬ exp ≤ env.times.headD 0) :
    _ensure_valid_token s env = ⟨.ok (), s, { env with times := env.times.tail }, []⟩ := by
  rw [List.headD_eq_head?] at hlt
  simp [_ensure_valid_token, Env.nextTime, hs, hne, he, hz, hlt]

/-- The `_ensure_valid_token` refresh branch: a held, non-empty token
whose nonzero expiry has passed turns the call into exactly one
`_refresh_access_token`. -/
theorem ensure_refresh (s : ClientState) (env : Env) (tok : String) (exp : Int)
    (hs : s.access_token = some tok) (hne : tok ≠ "")
    (he : s.token_expires_at = some exp) (hz : exp ≠ 0)
    (hge : exp ≤ env.times.headD 0) :
    _ensure_valid_token s env
      = { result := (_refresh_access_token s { env with times := env.times.tail }).result.map
            fun _ => (),
          state := (_refresh_access_token s { env with times := env.times.tail }).state,
          env := (_refresh_access_token s { env with times := env.times.tail }).env,
          calls := (_refresh_access_token s { env with times := env.times.tail }).calls } := by
  rw [List.headD_eq_head?] at hge
  simp [_ensure_valid_token, Env.nextTime, hs, hne, he, hz, hge]

/-- The `_ensure_valid_token` branch with no held access token: the call
is exactly one `authenticate`. -/
theorem ensure_authenticate (s : ClientState) (env : Env)
    (hs : s.access_token = none) :
    _ensure_valid_token s env
      = { result := (authenticate s env).result.map fun _ => (),
          state := (authenticate s env).state,
          env := (authenticate s env).env,
          calls := (authenticate s env).calls } := by
  simp [_ensure_valid_token, hs]

/-- C5 fails as stated: an `authenticate` that succeeds with
`expires_in = 0` yields `token_expires_at` 300 seconds in the past, so
`_ensure_valid_token` run immediately afterwards (same clock reading)
performs a network call. -/
theorem fresh_token_immediately_stale :
    (authenticate (ClientState.init "u" "p" "ci" "cs")
        ⟨[.resp 200 ⟨some "T", some "R", some 0⟩], [], [1000, 1000]⟩).result = .ok "T"
    ∧ (_ensure_valid_token
        (authenticate (ClientState.init "u" "p" "ci" "cs")
          ⟨[.resp 200 ⟨some "T", some "R", some 0⟩], [], [1000, 1000]⟩).state
        (authenticate (ClientState.init "u" "p" "ci" "cs")
          ⟨[.resp 200 ⟨some "T", some "R", some 0⟩], [], [1000, 1000]⟩).env).calls ≠ [] := by
  decide

/-- C5 (amended): after a successful `authenticate` whose response
carries a non-empty access token and an effective `expires_in` above 300
seconds, `_ensure_valid_token` at the same clock reading performs no
network call, succeeds, and leaves the token state unchanged. -/
theorem fresh_token_not_stale
    (s : ClientState) (env env2 : Env) (st : Int) (body : AuthBody)
    (rest : List AuthResult) (tok : String)
    (hresp : env.authResps = .resp st body :: rest)
    (hst : badStatus st = false)
    (htok : body.access_token = some tok) (hne : tok ≠ "")
    (hexp : 300 < body.expires_in.getD 10800)
    (hnow : env2.times.headD 0 = env.times.headD 0) :
    (_ensure_valid_token (authenticate s env).state env2).calls = []
    ∧ (_ensure_valid_token (authenticate s env).state env2).result = .ok ()
    ∧ (_ensure_valid_token (authenticate s env).state env2).state
        = (authenticate s env).state := by
  have hstate : (authenticate s env).state.access_token = some tok := by
    simp [authenticate, Env.nextAuth, Env.nextTime, hresp, hst, htok]
  have hexpat : (authenticate s env).state.token_expires_at
      = some (env.times.headD 0 + body.expires_in.getD 10800 - 300) := by
    simp [authenticate, Env.nextAuth, Env.nextTime, hresp, hst, htok]
  by_cases hz : env.times.headD 0 + body.expires_in.getD 10800 - 300 = 0
  · rw [ensure_noop_zero _ env2 tok hstate hne (by rw [hexpat, hz])]
    exact ⟨rfl, rfl, rfl⟩
  · have hlt : ¬ (env.times.headD 0 + body.expires_in.getD 10800 - 300)
        ≤ env2.times.headD 0 := by
      rw [hnow]
      omega
    rw [ensure_noop _ env2 tok _ hstate hne hexpat hz hlt]
    exact ⟨rfl, rfl, rfl⟩

/-- Witness for C5: a 5000-second token issued at clock reading 100 is
not considered stale by an immediate validity check. -/
theorem fresh_token_not_stale_witness :
    (_ensure_valid_token
        (authenticate (ClientState.init "u" "p" "ci" "cs")
          ⟨[.resp 200 ⟨some "T", some "R", some 5000⟩], [], [100]⟩).state
        ⟨[], [], [100]⟩).calls = []
    ∧ (_ensure_valid_token
        (authenticate (ClientState.init "u" "p" "ci" "cs")
          ⟨[.resp 200 ⟨some "T", some "R", some 5000⟩], [], [100]⟩).state
        ⟨[], [], [100]⟩).result = .ok ()
    ∧ (_ensure_valid_token
        (authenticate (ClientState.init "u" "p" "ci" "cs")
          ⟨[.resp 200 ⟨some "T", some "R", some 5000⟩], [], [100]⟩).state
        ⟨[], [], [100]⟩).state
      = (authenticate (ClientState.init "u" "p" "ci" "cs")
          ⟨[.resp 200 ⟨some "T", some "R", some 5000⟩], [], [100]⟩).state :=
  fresh_token_not_stale (ClientState.init "u" "p" "ci" "cs")
    ⟨[.resp 200 ⟨some "T", some "R", some 5000⟩], [], [100]⟩ ⟨[], [], [100]⟩
    200 ⟨some "T", some "R", some 5000⟩ [] "T" rfl (by decide) rfl (by decide) (by decide) rfl

/-- C6 fails as stated: with an access token held and
`token_expires_at = 0`, the current time 5 is past the expiry, yet the
request goes out with no refresh at all — the Python truthiness check
`if self.token_expires_at and ...` short-circuits on `0`. -/
theorem expired_time_no_refresh :
    ((5:Int) ≥ 0)
    ∧ (⟨"u", "p", "ci", "cs", some "T", none, some 0⟩ : ClientState).access_token.isSome = true
    ∧ (_make_authenticated_request "GET" "https://app.netatmo.net/api/homesdata" none
          ⟨"u", "p", "ci", "cs", some "T", none, some 0⟩
          ⟨[], [.resp 200 ⟨⟨[]⟩⟩], [5]⟩).calls
        = [Call.httpRequest "GET" "https://app.netatmo.net/api/homesdata" "Bearer T" none] := by
  refine ⟨by decide, by decide, by decide⟩

/-- C6 (amended): with a held non-empty access token whose
`token_expires_at` is present, nonzero and not after the current time,
token assurance performs exactly one `_refresh_access_token` (all of its
network activity is that refresh's), and when the refresh succeeds the
next authenticated request performs it before the primary request, which
carries the refreshed bearer token; with no access token it performs
`authenticate` instead; with an unexpired token it performs no token
operation. -/
theorem stale_token_triggers_refresh (s : ClientState) (env : Env) :
    (∀ tok exp, s.access_token = some tok → tok ≠ "" → s.token_expires_at = some exp →
      exp ≠ 0 → exp ≤ env.times.headD 0 →
      (_ensure_valid_token s env).calls
          = (_refresh_access_token s { env with times := env.times.tail }).calls
      ∧ (_ensure_valid_token s env).state
          = (_refresh_access_token s { env with times := env.times.tail }).state
      ∧ ∀ m u b, (_refresh_access_token s
            { env with times := env.times.tail }).result.isOk = true →
          ∃ tail, (_make_authenticated_request m u b s env).calls
            = (_refresh_access_token s { env with times := env.times.tail }).calls
              ++ Call.httpRequest m u
                  ("Bearer " ++ ((_refresh_access_token s
                      { env with times := env.times.tail }).state.access_token.getD "None")) b
              :: tail)
    ∧ (s.access_token = none →
        _ensure_valid_token s env
          = { result := (authenticate s env).result.map fun _ => (),
              state := (authenticate s env).state,
              env := (authenticate s env).env,
              calls := (authenticate s env).calls })
    ∧ (∀ tok exp, s.access_token = some tok → tok ≠ "" → s.token_expires_at = some exp →
        exp ≠ 0 → ¬ exp ≤ env.times.headD 0 →
        _ensure_valid_token s env = ⟨.ok (), s, { env with times := env.times.tail }, []⟩) := by
  refine ⟨?_, ensure_authenticate s env, fun tok exp hs hne he hz hlt =>
    ensure_noop s env tok exp hs hne he hz hlt⟩
  intro tok exp hs hne he hz hge
  have herf := ensure_refresh s env tok exp hs hne he hz hge
  refine ⟨by rw [herf], by rw [herf], ?_⟩
  intro m u b hok
  obtain ⟨tl, htl⟩ := (make_calls_split m u b s env).1 (by
    rw [herf]
    cases hv : (_refresh_access_token s { env with times := env.times.tail }).result with
    | error e =>
      rw [hv] at hok
      exact Bool.noConfusion hok
    | ok v => rfl)
  refine ⟨tl, ?_⟩
  rw [htl, herf]

/-- Witness for C6: a token expired at 10, checked at clock reading 50,
leads to one refresh POST; the subsequent request carries the refreshed
token `T2`. -/
theorem stale_token_triggers_refresh_witness :
    (_ensure_valid_token ⟨"u", "p", "ci", "cs", some "T", some "R", some 10⟩
        ⟨[.resp 200 ⟨some "T2", none, none⟩], [.resp 200 ⟨⟨[]⟩⟩], [50, 60]⟩).calls
      = [Call.authPost (.refreshGrant "R")]
    ∧ ∃ tail, (_make_authenticated_request "GET" "url" none
        ⟨"u", "p", "ci", "cs", some "T", some "R", some 10⟩
        ⟨[.resp 200 ⟨some "T2", none, none⟩], [.resp 200 ⟨⟨[]⟩⟩], [50, 60]⟩).calls
      = [Call.authPost (.refreshGrant "R")]
        ++ Call.httpRequest "GET" "url" "Bearer T2" none :: tail := by
  have h := (stale_token_triggers_refresh ⟨"u", "p", "ci", "cs", some "T", some "R", some 10⟩
      ⟨[.resp 200 ⟨some "T2", none, none⟩], [.resp 200 ⟨⟨[]⟩⟩], [50, 60]⟩).1
      "T" 10 rfl (by decide) rfl (by decide) (by decide)
  constructor
  · rw [h.1]
    rfl
  · obtain ⟨tl, htl⟩ := h.2.2 "GET" "url" none (by decide)
    refine ⟨tl, ?_⟩
    rw [htl]
    rfl

/-- C2 fails as stated: the first response is 403, but the refresh
chain itself fails (refresh-grant transport error, fallback password
grant rejected with 500), so no retry is performed at all — one request
in the trace — and the surfaced error is the refresh chain's 500, not a
retry's error. -/
theorem forbidden_retry_can_be_skipped :
    ((⟨[.transportError, .resp 500 ⟨none, none, none⟩], [.resp 403 ⟨⟨[]⟩⟩], [5]⟩ : Env).reqResps.headD
        .transportError = .resp 403 ⟨⟨[]⟩⟩)
    ∧ (_make_authenticated_request "GET" "u" none
        ⟨"u", "p", "ci", "cs", some "T", some "R", some 1000⟩
        ⟨[.transportError, .resp 500 ⟨none, none, none⟩], [.resp 403 ⟨⟨[]⟩⟩], [5]⟩).calls.countP
        (fun c => c.isHttpRequest) = 1
    ∧ (_make_authenticated_request "GET" "u" none
        ⟨"u", "p", "ci", "cs", some "T", some "R", some 1000⟩
        ⟨[.transportError, .resp 500 ⟨none, none, none⟩], [.resp 403 ⟨⟨[]⟩⟩], [5]⟩).result
      = .error (.httpStatusError 500) := by
  refine ⟨by decide, by decide, by decide⟩

/-- C2 (amended): when the first response of an authenticated request
is 403, the client performs exactly one `_refresh_access_token`; if that
refresh raises, its error propagates with no retry; if it completes, the
client performs exactly one retry of the same request carrying the
then-current token, and the retry's `raise_for_status` outcome — its
response or its error, not the original 403 — is final. -/
theorem forbidden_triggers_one_refresh_retry
    (m u : String) (b : Option OpenDoorBody) (s : ClientState) (env : Env)
    (s1 : ClientState) (env1 : Env) (c1 : List Call) (j : HomesData) (rest : List ReqResult)
    (hens : _ensure_valid_token s env = ⟨.ok (), s1, env1, c1⟩)
    (h403 : env1.reqResps = .resp 403 j :: rest) :
    (∀ e, (_refresh_access_token s1 { env1 with reqResps := rest }).result = .error e →
      _make_authenticated_request m u b s env
        = ⟨.error e, (_refresh_access_token s1 { env1 with reqResps := rest }).state,
           (_refresh_access_token s1 { env1 with reqResps := rest }).env,
           c1 ++ Call.httpRequest m u ("Bearer " ++ s1.access_token.getD "None") b
             :: (_refresh_access_token s1 { env1 with reqResps := rest }).calls⟩)
    ∧ (∀ tok2, (_refresh_access_token s1 { env1 with reqResps := rest }).result = .ok tok2 →
        (_make_authenticated_request m u b s env).calls
          = c1 ++ Call.httpRequest m u ("Bearer " ++ s1.access_token.getD "None") b
            :: ((_refresh_access_token s1 { env1 with reqResps := rest }).calls
              ++ [Call.httpRequest m u ("Bearer "
                  ++ (_refresh_access_token s1
                      { env1 with reqResps := rest }).state.access_token.getD "None") b])
        ∧ (_make_authenticated_request m u b s env).result
            = raiseForStatus ((_refresh_access_token s1
                { env1 with reqResps := rest }).env.reqResps.headD .transportError)
        ∧ (_make_authenticated_request m u b s env).state
            = (_refresh_access_token s1 { env1 with reqResps := rest }).state) := by
  constructor
  · intro e hrf
    simp [_make_authenticated_request, hens, Env.nextReq, h403, hrf]
  · intro tok2 hrf
    refine ⟨?_, ?_, ?_⟩ <;>
    · cases hr2 : (_refresh_access_token s1 { env1 with reqResps := rest }).env.reqResps with
      | nil => simp [_make_authenticated_request, hens, Env.nextReq, h403, hrf, hr2, raiseForStatus]
      | cons r2 rest2 =>
        cases r2 with
        | transportError =>
          simp [_make_authenticated_request, hens, Env.nextReq, h403, hrf, hr2, raiseForStatus]
        | resp st2 j2 =>
          by_cases hb2 : badStatus st2 <;>
            simp [_make_authenticated_request, hens, Env.nextReq, h403, hrf, hr2, hb2, raiseForStatus]

/-- An `authenticate` run performs exactly one auth-endpoint POST. -/
theorem authenticate_calls (s : ClientState) (env : Env) :
    (authenticate s env).calls = [Call.authPost .password] := by
  cases har : env.authResps with
  | nil => simp [authenticate, Env.nextAuth, har]
  | cons r rest =>
    cases r with
    | transportError => simp [authenticate, Env.nextAuth, har]
    | resp st body =>
      by_cases hb : badStatus st
      · simp [authenticate, Env.nextAuth, har, hb]
      · cases hab : body.access_token <;>
          simp [authenticate, Env.nextAuth, Env.nextTime, har, hb, hab]

/-- A `_refresh_access_token` run performs only auth-endpoint POSTs. -/
theorem refresh_calls_auth (s : ClientState) (env : Env) :
    ∀ c ∈ (_refresh_access_token s env).calls, c.isHttpRequest = false := by
  cases hrt : s.refresh_token with
  | none =>
    have heq : _refresh_access_token s env = authenticate s env := by
      simp [_refresh_access_token, hrt]
    rw [heq, authenticate_calls]
    intro c hc
    simp at hc
    subst hc
    rfl
  | some rt =>
    by_cases hne : rt = ""
    · have heq : _refresh_access_token s env = authenticate s env := by
        simp [_refresh_access_token, hrt, hne]
      rw [heq, authenticate_calls]
      intro c hc
      simp at hc
      subst hc
      rfl
    · cases har : env.authResps with
      | nil =>
        intro c hc
        simp [_refresh_access_token, authenticate, Env.nextAuth, hrt, hne, har] at hc
        rcases hc with h | h <;> subst h <;> rfl
      | cons r rest =>
        cases r with
        | transportError =>
          intro c hc
          have : (_refresh_access_token s env).calls
              = Call.authPost (.refreshGrant rt)
                :: (authenticate s { env with authResps := rest }).calls := by
            simp [_refresh_access_token, Env.nextAuth, hrt, hne, har]
          rw [this, authenticate_calls] at hc
          simp at hc
          rcases hc with h | h <;> subst h <;> rfl
        | resp st body =>
          by_cases hb : badStatus st
          · intro c hc
            have : (_refresh_access_token s env).calls
                = Call.authPost (.refreshGrant rt)
                  :: (authenticate s { env with authResps := rest }).calls := by
              simp [_refresh_access_token, Env.nextAuth, hrt, hne, har, hb]
            rw [this, authenticate_calls] at hc
            simp at hc
            rcases hc with h | h <;> subst h <;> rfl
          · cases hab : body.access_token with
            | none =>
              intro c hc
              simp [_refresh_access_token, Env.nextAuth, hrt, hne, har, hb, hab] at hc
              subst hc
              rfl
            | some tk =>
              intro c hc
              simp [_refresh_access_token, Env.nextAuth, Env.nextTime,
                hrt, hne, har, hb, hab] at hc
              subst hc
              rfl

/-- A `_ensure_valid_token` run performs only auth-endpoint POSTs. -/
theorem ensure_calls_auth (s : ClientState) (env : Env) :
    ∀ c ∈ (_ensure_valid_token s env).calls, c.isHttpRequest = false := by
  cases hs : s.access_token with
  | none =>
    rw [ensure_authenticate s env hs]
    intro c hc
    rw [authenticate_calls] at hc
    simp at hc
    subst hc
    rfl
  | some tok =>
    by_cases hne : tok = ""
    · subst hne
      have heq : (_ensure_valid_token s env).calls = (authenticate s env).calls := by
        simp [_ensure_valid_token, hs]
      rw [heq, authenticate_calls]
      intro c hc
      simp at hc
      subst hc
      rfl
    · cases he : s.token_expires_at with
      | none =>
        have heq : (_ensure_valid_token s env).calls = [] := by
          simp [_ensure_valid_token, hs, hne, he]
        rw [heq]
        intro c hc
        cases hc
      | some exp =>
        by_cases hz : exp = 0
        · subst hz
          rw [ensure_noop_zero s env tok hs hne he]
          intro c hc
          cases hc
        · by_cases hge : exp ≤ env.times.headD 0
          · rw [ensure_refresh s env tok exp hs hne he hz hge]
            exact refresh_calls_auth s _
          · rw [ensure_noop s env tok exp hs hne he hz hge]
            intro c hc
            cases hc

/-- Every `requests.request` call in a `_make_authenticated_request`
trace carries exactly the JSON body passed in. -/
theorem make_request_bodies (m u : String) (b : Option OpenDoorBody)
    (s : ClientState) (env : Env) :
    ∀ c ∈ (_make_authenticated_request m u b s env).calls,
      c.isHttpRequest = true → c.requestBody = b := by
  have hens := ensure_calls_auth s env
  unfold _make_authenticated_request
  generalize hg : _ensure_valid_token s env = e
  rw [hg] at hens
  obtain ⟨res, s1, env1, c1⟩ := e
  have hens1 : ∀ c ∈ c1, c.isHttpRequest = false := hens
  cases res with
  | error err =>
    intro c hc hhttp
    exact absurd (hens1 c hc) (by simp [hhttp])
  | ok v =>
    have fin1 : ∀ (x : Res HttpResp) (br : String),
        x.calls = c1 ++ [Call.httpRequest m u br b] →
        ∀ c ∈ x.calls, c.isHttpRequest = true → c.requestBody = b := by
      intro x br hx c hcx hhttp
      rw [hx] at hcx
      rcases List.mem_append.mp hcx with h | h
      · exact absurd (hens1 c h) (by simp [hhttp])
      · rw [List.mem_singleton] at h
        subst h
        rfl
    have fin2e : ∀ (x : Res HttpResp) (br : String) (s2 : ClientState) (env2 : Env),
        x.calls = (c1 ++ [Call.httpRequest m u br b]) ++ (_refresh_access_token s2 env2).calls →
        ∀ c ∈ x.calls, c.isHttpRequest = true → c.requestBody = b := by
      intro x br s2 env2 hx c hcx hhttp
      rw [hx] at hcx
      rcases List.mem_append.mp hcx with h | h
      · rcases List.mem_append.mp h with h | h
        · exact absurd (hens1 c h) (by simp [hhttp])
        · rw [List.mem_singleton] at h
          subst h
          rfl
      · exact absurd (refresh_calls_auth _ _ c h) (by simp [hhttp])
    have fin2 : ∀ (x : Res HttpResp) (br br2 : String) (s2 : ClientState) (env2 : Env),
        x.calls = (c1 ++ [Call.httpRequest m u br b])
            ++ (_refresh_access_token s2 env2).calls ++ [Call.httpRequest m u br2 b] →
        ∀ c ∈ x.calls, c.isHttpRequest = true → c.requestBody = b := by
      intro x br br2 s2 env2 hx c hcx hhttp
      rw [hx] at hcx
      rcases List.mem_append.mp hcx with h | h
      · rcases List.mem_append.mp h with h | h
        · rcases List.mem_append.mp h with h | h
          · exact absurd (hens1 c h) (by simp [hhttp])
          · rw [List.mem_singleton] at h
            subst h
            rfl
        · exact absurd (refresh_calls_auth _ _ c h) (by simp [hhttp])
      · rw [List.mem_singleton] at h
        subst h
        rfl
    cases hr : env1.reqResps with
    | nil =>
      exact fin1 _ ("Bearer " ++ s1.access_token.getD "None") (by simp [Env.nextReq, hr])
    | cons r rest =>
      cases r with
      | transportError =>
        exact fin1 _ ("Bearer " ++ s1.access_token.getD "None") (by simp [Env.nextReq, hr])
      | resp st j =>
        by_cases h403 : st = 403
        · cases hrf : (_refresh_access_token s1 { env1 with reqResps := rest }).result with
          | error err2 =>
            exact fin2e _ ("Bearer " ++ s1.access_token.getD "None") s1
              { env1 with reqResps := rest } (by simp [Env.nextReq, hr, h403, hrf])
          | ok v2 =>
            cases hr2 : (_refresh_access_token s1 { env1 with reqResps := rest }).env.reqResps with
            | nil =>
              exact fin2 _ ("Bearer " ++ s1.access_token.getD "None")
                ("Bearer " ++ ((_refresh_access_token s1
                    { env1 with reqResps := rest }).state.access_token.getD "None")) s1
                { env1 with reqResps := rest } (by simp [Env.nextReq, hr, h403, hrf, hr2])
            | cons r2 rest2 =>
              cases r2 with
              | transportError =>
                exact fin2 _ ("Bearer " ++ s1.access_token.getD "None")
                  ("Bearer " ++ ((_refresh_access_token s1
                      { env1 with reqResps := rest }).state.access_token.getD "None")) s1
                  { env1 with reqResps := rest } (by simp [Env.nextReq, hr, h403, hrf, hr2])
              | resp st2 j2 =>
                by_cases hb2 : badStatus st2 <;>
                  exact fin2 _ ("Bearer " ++ s1.access_token.getD "None")
                    ("Bearer " ++ ((_refresh_access_token s1
                        { env1 with reqResps := rest }).state.access_token.getD "None")) s1
                    { env1 with reqResps := rest }
                    (by simp [Env.nextReq, hr, h403, hrf, hr2, hb2])
        · cases hb : badStatus st <;>
            exact fin1 _ ("Bearer " ++ s1.access_token.getD "None")
              (by simp [Env.nextReq, hr, h403, hb])

/-- C8: for every input, every request `open_door` sends carries
exactly the fixed envelope — `app_type "app_camera"`, the fixed client
version `"4.1.1.3"`, the given timezone and home id, and one module
entry with the given bridge and module ids and `lock: false` — and
whatever completes without error returns `true`. -/
theorem open_door_body_fixed (home_id timezone bridge_id module_id : String)
    (s : ClientState) (env : Env) :
    (∀ c ∈ (open_door home_id timezone bridge_id module_id s env).calls,
        c.isHttpRequest = true →
        c.requestBody = some (OpenDoorBody.mk "app_camera" "4.1.1.3"
          (SetStateHome.mk timezone home_id [SetStateModule.mk bridge_id false module_id])))
    ∧ ∀ x, (open_door home_id timezone bridge_id module_id s env).result = .ok x → x = true := by
  constructor
  · intro c hc hhttp
    exact make_request_bodies "POST" NETATMO_SETSTATE_URL
      (some (OpenDoorBody.mk "app_camera" "4.1.1.3"
        (SetStateHome.mk timezone home_id [SetStateModule.mk bridge_id false module_id])))
      s env c hc hhttp
  · intro x hx
    have hx' : Except.map (fun _ => true) (_make_authenticated_request "POST" NETATMO_SETSTATE_URL
        (some (OpenDoorBody.mk "app_camera" "4.1.1.3"
          (SetStateHome.mk timezone home_id [SetStateModule.mk bridge_id false module_id])))
        s env).result = .ok x := hx
    cases hm : (_make_authenticated_request "POST" NETATMO_SETSTATE_URL
        (some (OpenDoorBody.mk "app_camera" "4.1.1.3"
          (SetStateHome.mk timezone home_id [SetStateModule.mk bridge_id false module_id])))
        s env).result with
    | error e =>
      rw [hm] at hx'
      cases hx'
    | ok v =>
      rw [hm] at hx'
      have h2 : Except.ok (ε := PyError) true = Except.ok x := hx'
      injection h2 with h3
      exact h3.symm

/-- Witness for C8: a concrete `open_door` run sends exactly one
request, whose body is the fixed envelope, and returns `true`. -/
theorem open_door_body_fixed_witness :
    (open_door "H1" "TZ" "B1" "D1" ⟨"u", "p", "ci", "cs", some "T", none, some 9⟩
        ⟨[], [.resp 200 ⟨⟨[]⟩⟩], [5]⟩).calls
      = [Call.httpRequest "POST" NETATMO_SETSTATE_URL "Bearer T"
          (some ⟨"app_camera", "4.1.1.3", ⟨"TZ", "H1", [⟨"B1", false, "D1"⟩]⟩⟩)]
    ∧ (Call.httpRequest "POST" NETATMO_SETSTATE_URL "Bearer T"
          (some ⟨"app_camera", "4.1.1.3", ⟨"TZ", "H1", [⟨"B1", false, "D1"⟩]⟩⟩)).requestBody
        = some ⟨"app_camera", "4.1.1.3", ⟨"TZ", "H1", [⟨"B1", false, "D1"⟩]⟩⟩
    ∧ ((open_door "H1" "TZ" "B1" "D1" ⟨"u", "p", "ci", "cs", some "T", none, some 9⟩
          ⟨[], [.resp 200 ⟨⟨[]⟩⟩], [5]⟩).result = .ok true ∧ true = true) := by
  refine ⟨by decide, ?_, by decide, ?_⟩
  · exact (open_door_body_fixed "H1" "TZ" "B1" "D1"
      ⟨"u", "p", "ci", "cs", some "T", none, some 9⟩ ⟨[], [.resp 200 ⟨⟨[]⟩⟩], [5]⟩).1
      _ (by decide) rfl
  · exact (open_door_body_fixed "H1" "TZ" "B1" "D1"
      ⟨"u", "p", "ci", "cs", some "T", none, some 9⟩ ⟨[], [.resp 200 ⟨⟨[]⟩⟩], [5]⟩).2
      true (by decide)

/-- `authenticate` preserves the token invariant. -/
theorem authenticate_inv (s : ClientState) (env : Env) (h : TokenInv s) :
    TokenInv (authenticate s env).state := by
  cases hres : (authenticate s env).result with
  | error e => rw [authenticate_error_state s env e hres]; exact h
  | ok tok =>
    obtain ⟨body, t, _, hs⟩ := authenticate_ok_shape s env tok hres
    rw [hs]
    intro _
    rfl

/-- `_refresh_access_token` preserves the token invariant. -/
theorem refresh_inv (s : ClientState) (env : Env) (h : TokenInv s) :
    TokenInv (_refresh_access_token s env).state := by
  cases hres : (_refresh_access_token s env).result with
  | error e => rw [refresh_error_state s env e hres]; exact h
  | ok tok =>
    obtain ⟨body, t, rtNew, _, hs, _⟩ := refresh_ok_shape s env tok hres
    rw [hs]
    intro _
    rfl

/-- `_ensure_valid_token` preserves the token invariant. -/
theorem ensure_inv (s : ClientState) (env : Env) (h : TokenInv s) :
    TokenInv (_ensure_valid_token s env).state := by
  cases hs : s.access_token with
  | none => rw [ensure_authenticate s env hs]; exact authenticate_inv s env h
  | some tok =>
    by_cases hne : tok = ""
    · subst hne
      have heq : (_ensure_valid_token s env).state = (authenticate s env).state := by
        simp [_ensure_valid_token, hs]
      rw [heq]
      exact authenticate_inv s env h
    · cases he : s.token_expires_at with
      | none =>
        have heq : (_ensure_valid_token s env).state = s := by
          simp [_ensure_valid_token, hs, hne, he]
        rw [heq]
        exact h
      | some exp =>
        by_cases hz : exp = 0
        · subst hz
          rw [ensure_noop_zero s env tok hs hne he]
          exact h
        · by_cases hge : exp ≤ env.times.headD 0
          · rw [ensure_refresh s env tok exp hs hne he hz hge]
            exact refresh_inv s _ h
          · rw [ensure_noop s env tok exp hs hne he hz hge]
            exact h

/-- `_make_authenticated_request` preserves the token invariant. -/
theorem make_inv (m u : String) (b : Option OpenDoorBody) (s : ClientState) (env : Env)
    (h : TokenInv s) : TokenInv (_make_authenticated_request m u b s env).state := by
  have he := ensure_inv s env h
  unfold _make_authenticated_request
  generalize hg : _ensure_valid_token s env = e
  rw [hg] at he
  obtain ⟨res, s1, env1, c1⟩ := e
  cases res with
  | error err => exact he
  | ok v =>
    cases hr : env1.reqResps with
    | nil => simpa [Env.nextReq, hr] using he
    | cons r rest =>
      cases r with
      | transportError => simpa [Env.nextReq, hr] using he
      | resp st j =>
        by_cases h403 : st = 403
        · have hrf := refresh_inv s1 { env1 with reqResps := rest } he
          cases hrfres : (_refresh_access_token s1 { env1 with reqResps := rest }).result with
          | error err2 => simpa [Env.nextReq, hr, h403, hrfres] using hrf
          | ok v2 =>
            cases hr2 : (_refresh_access_token s1 { env1 with reqResps := rest }).env.reqResps with
            | nil => simpa [Env.nextReq, hr, h403, hrfres, hr2] using hrf
            | cons r2 rest2 =>
              cases r2 with
              | transportError => simpa [Env.nextReq, hr, h403, hrfres, hr2] using hrf
              | resp st2 j2 =>
                by_cases hb2 : badStatus st2 <;>
                  simpa [Env.nextReq, hr, h403, hrfres, hr2, hb2] using hrf
        · cases hb : badStatus st <;> simpa [Env.nextReq, hr, h403, hb] using he

/-- Every caller-visible operation preserves the token invariant. -/
theorem runOp_inv (op : Op) (s : ClientState) (env : Env) (h : TokenInv s) :
    TokenInv (runOp op s env).1 := by
  cases op with
  | authenticateOp => exact authenticate_inv s env h
  | refreshOp => exact refresh_inv s env h
  | ensureOp => exact ensure_inv s env h
  | requestOp m u b => exact make_inv m u b s env h
  | homesDataOp => exact make_inv _ _ _ s env h
  | doorModulesOp => exact make_inv _ _ _ s env h
  | openDoorOp hm tz br mo => exact make_inv _ _ _ s env h

/-- Every sequence of operations preserves the token invariant. -/
theorem runOps_inv (ops : List Op) (s : ClientState) (env : Env) (h : TokenInv s) :
    TokenInv (runOps ops s env).1 := by
  induction ops generalizing s env with
  | nil => exact h
  | cons op ops ih => exact ih _ _ (runOp_inv op s env h)

/-- C9: from a freshly constructed client, after any sequence of
operations, whenever an access token is held an expiry is held too; and
a discovery or control call on a valid token leaves the token fields
untouched (they are only ever written inside `authenticate` and
`_refresh_access_token`). -/
theorem token_state_invariant (username password client_id client_secret : String)
    (ops : List Op) (env : Env) :
    ((runOps ops (ClientState.init username password client_id client_secret)
          env).1.access_token.isSome = true →
      (runOps ops (ClientState.init username password client_id client_secret)
          env).1.token_expires_at.isSome = true)
    ∧ (∀ s tok exp st j rest, s.access_token = some tok → tok ≠ "" →
        s.token_expires_at = some exp → exp ≠ 0 → ¬ exp ≤ env.times.headD 0 →
        env.reqResps = .resp st j :: rest → st ≠ 403 → badStatus st = false →
        (get_door_modules s env).state = s
        ∧ ∀ hid tz br mo, (open_door hid tz br mo s env).state = s) := by
  constructor
  · exact runOps_inv ops _ env (by simp [TokenInv, ClientState.init])
  · intro s tok exp st j rest hs hne he hz hlt hresp h403 hb
    have hens := ensure_noop s env tok exp hs hne he hz hlt
    constructor
    · simp [get_door_modules, get_homes_data, _make_authenticated_request, hens,
        Env.nextReq, hresp, h403, hb]
    · intro hid tz br mo
      simp [open_door, _make_authenticated_request, hens, Env.nextReq, hresp, h403, hb]

/-- Witness for C9: one successful `authenticate` leaves an expiry
beside the token, and a discovery call on a valid token leaves the
state unchanged. -/
theorem token_state_invariant_witness :
    (runOps [Op.authenticateOp] (ClientState.init "u" "p" "ci" "cs")
        ⟨[.resp 200 ⟨some "T", none, some 60⟩], [], [0]⟩).1.token_expires_at.isSome = true
    ∧ (get_door_modules ⟨"u", "p", "ci", "cs", some "T", none, some 9⟩
        ⟨[], [.resp 200 ⟨⟨[]⟩⟩], [5]⟩).state = ⟨"u", "p", "ci", "cs", some "T", none, some 9⟩ := by
  constructor
  · exact (token_state_invariant "u" "p" "ci" "cs" [Op.authenticateOp]
      ⟨[.resp 200 ⟨some "T", none, some 60⟩], [], [0]⟩).1 (by decide)
  · exact ((token_state_invariant "u" "p" "ci" "cs" []
      ⟨[], [.resp 200 ⟨⟨[]⟩⟩], [5]⟩).2 ⟨"u", "p", "ci", "cs", some "T", none, some 9⟩
      "T" 9 200 ⟨⟨[]⟩⟩ [] rfl (by decide) rfl (by decide) (by decide) rfl
      (by decide) (by decide)).1

/-- Witness for C2: a 403 answered by a successful refresh leads to
exactly the trace primary request, one refresh POST, one retry with the
refreshed token, and the retry's 200 response as the final result. -/
theorem forbidden_triggers_one_refresh_retry_witness :
    (_make_authenticated_request "GET" "u" none
        ⟨"u", "p", "ci", "cs", some "T", some "R", some 1000⟩
        ⟨[.resp 200 ⟨some "T2", none, none⟩],
         [.resp 403 ⟨⟨[]⟩⟩, .resp 200 ⟨⟨[]⟩⟩], [5, 60]⟩).calls
      = [Call.httpRequest "GET" "u" "Bearer T" none,
         Call.authPost (.refreshGrant "R"),
         Call.httpRequest "GET" "u" "Bearer T2" none]
    ∧ (_make_authenticated_request "GET" "u" none
        ⟨"u", "p", "ci", "cs", some "T", some "R", some 1000⟩
        ⟨[.resp 200 ⟨some "T2", none, none⟩],
         [.resp 403 ⟨⟨[]⟩⟩, .resp 200 ⟨⟨[]⟩⟩], [5, 60]⟩).result
      = .ok ⟨200, ⟨⟨[]⟩⟩⟩ := by
  have h := (forbidden_triggers_one_refresh_retry "GET" "u" none
      ⟨"u", "p", "ci", "cs", some "T", some "R", some 1000⟩
      ⟨[.resp 200 ⟨some "T2", none, none⟩],
       [.resp 403 ⟨⟨[]⟩⟩, .resp 200 ⟨⟨[]⟩⟩], [5, 60]⟩
      ⟨"u", "p", "ci", "cs", some "T", some "R", some 1000⟩
      ⟨[.resp 200 ⟨some "T2", none, none⟩],
       [.resp 403 ⟨⟨[]⟩⟩, .resp 200 ⟨⟨[]⟩⟩], [60]⟩
      [] ⟨⟨[]⟩⟩ [.resp 200 ⟨⟨[]⟩⟩] (by decide) rfl).2 "T2" (by decide)
  refine ⟨?_, ?_⟩
  · rw [h.1]
    rfl
  · rw [h.2.1]
    rfl

end Netatmo
